import Mathlib

/-!
Verification of the Data-Aggregation-Tool (src/app.py) against its
specification.  The pandas dataframe pipeline is shallowly embedded:
a cell is missing (NaN), a string, or an exact rational number; a table
is a column-name list together with rows of (name, cell) pairs kept in
column order.  Exceptions of the Python code are modelled with Except.
-/

set_option maxRecDepth 4000

set_option allowUnsafeReducibility true in
attribute [semireducible] Rat.add

set_option allowUnsafeReducibility true in
attribute [semireducible] Rat.mul

set_option allowUnsafeReducibility true in
attribute [semireducible] Rat.inv

set_option allowUnsafeReducibility true in
attribute [semireducible] Rat.sub

set_option allowUnsafeReducibility true in
attribute [semireducible] Rat.neg

set_option allowUnsafeReducibility true in
attribute [semireducible] Rat.normalize

/-- Cell of a pandas dataframe: missing value (NaN/None), a string, or a
number.  Numbers are modelled as exact rationals. -/
inductive Cell where
  | na : Cell
  | str (s : String) : Cell
  | num (q : ℚ) : Cell
deriving DecidableEq, Repr

deriving instance DecidableEq for Except

/-- pd.isna on a scalar cell. -/
def Cell.isna : Cell → Bool
  | .na => true
  | _ => false

/-- Numeric view of a cell: Some q for a number, none otherwise.  Used by
the reductions, which skip missing values (pandas skipna). -/
def Cell.toNumOpt : Cell → Option ℚ
  | .num q => some q
  | _ => none

/-- Row of a dataframe: association list from column name to cell,
kept in the column order of the frame. -/
abbrev Row := List (String × Cell)

/-- Dataframe: named columns and rows. -/
structure DF where
  cols : List String
  rows : List Row
deriving DecidableEq, Repr

/-- Well-formed frame: every row carries exactly the columns, in order. -/
def DF.WF (df : DF) : Prop := ∀ r ∈ df.rows, r.map Prod.fst = df.cols

/-- Reading a cell of a row by column name (pandas row[col]). -/
def getCellR (r : Row) (c : String) : Cell := (r.lookup c).getD .na

/- ### The date regex of format_date

re.match of the source pattern — four digits, space, two digits, space,
open paren, word characters, space, apostrophe, two digits, close paren —
anchored at the start of the string, trailing characters allowed.  Since a
space is not a word character, the backtracking of the word-character run
is equivalent to taking the maximal run. -/

/-- Word character for the regex \w (ASCII model). -/
def isWordChar (c : Char) : Bool := c.isAlphanum || c = '_'

/-- Value of a digit string, most significant first. -/
def digitsVal (cs : List Char) : Nat := cs.foldl (fun a c => a * 10 + (c.toNat - 48)) 0

/-- Consume exactly n digits; return them and the rest. -/
def takeDigits : Nat → List Char → Option (List Char × List Char)
  | 0, cs => some ([], cs)
  | _ + 1, [] => none
  | n + 1, c :: cs =>
      if c.isDigit then (takeDigits n cs).map (fun p => (c :: p.1, p.2)) else none

/-- Consume one given character. -/
def expectChar (c : Char) : List Char → Option (List Char)
  | [] => none
  | x :: xs => if x = c then some xs else none

/-- Consume the maximal run of word characters, requiring at least one. -/
def takeWord1 (cs : List Char) : Option (List Char) :=
  match cs with
  | [] => none
  | c :: _ => if isWordChar c then some (cs.dropWhile isWordChar) else none

/-- Model of the re.match call of format_date (src/app.py line 13):
on success returns the two captured groups as numbers (year, month). -/
def matchSpecial (s : String) : Option (Nat × Nat) := do
  let (y, r1) ← takeDigits 4 s.toList
  let r2 ← expectChar ' ' r1
  let (m, r3) ← takeDigits 2 r2
  let r4 ← expectChar ' ' r3
  let r5 ← expectChar '(' r4
  let r6 ← takeWord1 r5
  let r7 ← expectChar ' ' r6
  let r8 ← expectChar '\'' r7
  let (_, r9) ← takeDigits 2 r8
  let _ ← expectChar ')' r9
  pure (digitsVal y, digitsVal m)

/- ### pd.to_datetime and strftime -/

/-- Month arithmetic index used for the pandas Timestamp range check. -/
def ymIndex (y m : Nat) : Nat := y * 12 + m

/-- Model of pd.to_datetime(f"{year}-{month}-01", format="%Y-%m-%d"):
succeeds exactly when the month is a real month and the first of that
month lies inside the pandas Timestamp range, which runs from
1677-09-21 to 2262-04-11; outside it the call raises and format_date
falls into its except branch. -/
def toDatetimeFirstOfMonth (y m : Nat) : Option (Nat × Nat) :=
  if 1 ≤ m ∧ m ≤ 12 ∧ ymIndex 1677 10 ≤ ymIndex y m ∧ ymIndex y m ≤ ymIndex 2262 4 then
    some (y, m)
  else none

/-- Zero-pad to two digits (strftime %d, %m). -/
def pad2 (n : Nat) : String := if n < 10 then "0" ++ toString n else toString n

/-- Zero-pad to four digits (strftime %Y). -/
def pad4 (n : Nat) : String :=
  if n < 10 then "000" ++ toString n
  else if n < 100 then "00" ++ toString n
  else if n < 1000 then "0" ++ toString n
  else toString n

/-- strftime("%d-%m-%Y") on a (year, month, day) triple. -/
def strfDMY (y m d : Nat) : String := pad2 d ++ "-" ++ pad2 m ++ "-" ++ pad4 y

/- ### format_date -/

/-- Behaviour of dateutil.parser.parse(s, fuzzy=True): either a parsed
(year, month, day) or a raised exception.  The library is external to the
repository, so format_date is parameterised over it. -/
abbrev Fuzzy := String → Except String (Nat × Nat × Nat)

/-- Body of the try block of format_date (src/app.py lines 11-21), before
the except handler.  An Except.error is a raised exception:
re.match raises TypeError on a non-string argument; pd.to_datetime raises
on an invalid month or an out-of-range year; the fuzzy parser may raise. -/
def format_date_try (fuzzy : Fuzzy) : Cell → Except String String
  | .na => .error "TypeError"
  | .num _ => .error "TypeError: expected string or bytes-like object"
  | .str s =>
    match matchSpecial s with
    | some (y, m) =>
      match toDatetimeFirstOfMonth y m with
      | some (y, m) => .ok (strfDMY y m 1)
      | none => .error "to_datetime: invalid or out-of-range date"
    | none =>
      match fuzzy s with
      | .ok (y, m, d) => .ok (strfDMY y m d)
      | .error e => .error e

/-- format_date (src/app.py lines 8-24): None for a missing input, else the
try body with every exception caught and turned into None. -/
def format_date (fuzzy : Fuzzy) (c : Cell) : Option String :=
  if c.isna then none
  else
    match format_date_try fuzzy c with
    | .ok s => some s
    | .error _ => none

/-- Fuzzy parser that always raises; used for inputs on which the fuzzy
branch is never consulted. -/
def noFuzzy : Fuzzy := fun s => .error s

/- ### pd.to_numeric(..., errors="coerce") -/

/-- Unsigned numeric literal: digits with an optional single decimal point,
at least one digit overall. -/
def parseUnsignedQ (cs : List Char) : Option ℚ :=
  let d1 := cs.takeWhile Char.isDigit
  let rest := cs.dropWhile Char.isDigit
  match rest with
  | [] => if d1.isEmpty then none else some (digitsVal d1)
  | '.' :: frac =>
      if frac.all Char.isDigit && !(d1.isEmpty && frac.isEmpty) then
        some ((digitsVal d1 : ℚ) + (digitsVal frac : ℚ) / ((10 : ℚ) ^ frac.length))
      else none
  | _ => none

/-- Strip surrounding whitespace from a character list. -/
def trimChars (cs : List Char) : List Char :=
  ((cs.dropWhile Char.isWhitespace).reverse.dropWhile Char.isWhitespace).reverse

/-- Numeric parse of a string as pd.to_numeric performs it: surrounding
whitespace stripped, optional sign, decimal literal. -/
def toNumericQ (s : String) : Option ℚ :=
  match trimChars s.toList with
  | '-' :: rest => (parseUnsignedQ rest).map Neg.neg
  | '+' :: rest => parseUnsignedQ rest
  | cs => parseUnsignedQ cs

/-- pd.to_numeric(cell, errors="coerce"): numbers pass through, numeric
strings are parsed, everything else becomes missing. -/
def Cell.coerceNum : Cell → Cell
  | .na => .na
  | .num q => .num q
  | .str s =>
    match toNumericQ s with
    | some q => .num q
    | none => .na

/- ### The process_file pipeline -/

/-- Errors surfaced by process_file.  The first four are reported with
st.error and end the run returning None; keyError models an uncaught
pandas KeyError for a missing column (also no output). -/
inductive PErr where
  | unsupportedFileType : PErr
  | missingCols (cols : List String) : PErr
  | unsupportedAgg : PErr
  | noSumCols : PErr
  | keyError (cols : List String) : PErr
deriving DecidableEq, Repr

/-- The uploaded file: its name and the frames that pd.read_excel
(per sheet selection) and pd.read_csv would produce from its bytes. -/
structure UploadedFile where
  name : String
  excelData : Option String → DF
  csvData : DF

/-- str.endswith of Python: suffix test on the characters. -/
def strEndsWith (s suf : String) : Bool :=
  suf.toList.length ≤ s.toList.length &&
    decide (s.toList.drop (s.toList.length - suf.toList.length) = suf.toList)

/-- File-extension dispatch of process_file (src/app.py lines 28-36). -/
def readFile (f : UploadedFile) (sheet : Option String) : Except PErr DF :=
  if strEndsWith f.name ".xlsx" then .ok (f.excelData sheet)
  else if strEndsWith f.name ".csv" then .ok f.csvData
  else .error .unsupportedFileType

/-- data.dropna(how="all"): remove rows whose every cell is missing. -/
def DF.dropAllNa (df : DF) : DF :=
  { df with rows := df.rows.filter (fun r => !(r.all (fun p => p.2.isna))) }

/-- Assignment data[c] = f(row): overwrite the column in place when it
exists, else append it on the right. -/
def DF.setCol (df : DF) (c : String) (f : Row → Cell) : DF :=
  if df.cols.contains c then
    { cols := df.cols,
      rows := df.rows.map (fun r => r.map (fun p => if p.1 = c then (c, f r) else p)) }
  else
    { cols := df.cols ++ [c],
      rows := df.rows.map (fun r => r ++ [(c, f r)]) }

/-- data.dropna(subset=[c]): remove rows whose cell at c is missing. -/
def DF.dropNaIn (df : DF) (c : String) : DF :=
  { df with rows := df.rows.filter (fun r => !(getCellR r c).isna) }

/-- Name of the added column. -/
def fmCol : String := "Formatted Month"

/-- First stage of process_file (src/app.py lines 28-49): read the file,
drop fully empty rows, apply format_date to the date column into the
added "Formatted Month" column, drop rows where it is missing.  Reading a
missing date column raises KeyError. -/
def prepare (fuzzy : Fuzzy) (file : UploadedFile) (sheet : Option String)
    (dateCol : String) : Except PErr DF :=
  match readFile file sheet with
  | .error e => .error e
  | .ok data0 =>
    let data := data0.dropAllNa
    if data.cols.contains dateCol then
      .ok ((data.setCol fmCol
        (fun r => match format_date fuzzy (getCellR r dateCol) with
                  | some s => .str s
                  | none => .na)).dropNaIn fmCol)
    else .error (.keyError [dateCol])

/-- Coerce the selected columns with pd.to_numeric(errors="coerce")
(src/app.py line 59). -/
def DF.coerceCols (df : DF) (cs : List String) : DF :=
  { df with
    rows := df.rows.map (fun r =>
      r.map (fun p => if cs.contains p.1 then (p.1, p.2.coerceNum) else p)) }

/-- Grouping key columns: "Formatted Month" followed by the group columns. -/
def keyCols (groupCols : List String) : List String := fmCol :: groupCols

/-- Key of a row: its cells at the key columns. -/
def rowKey (r : Row) (ks : List String) : List Cell := ks.map (fun c => getCellR r c)

/-- A groupby key is kept only when none of its cells is missing
(pandas groupby default dropna=True). -/
def keyValid (k : List Cell) : Bool := k.all (fun c => !c.isna)

/-- Insertion sort on rationals, used by the median. -/
def insertQ (x : ℚ) : List ℚ → List ℚ
  | [] => [x]
  | y :: ys => if x ≤ y then x :: y :: ys else y :: insertQ x ys

/-- Sort a list of rationals ascending. -/
def sortQ (l : List ℚ) : List ℚ := l.foldr insertQ []

/-- groupby(...)[c].sum(): missing values skipped, empty group gives 0. -/
def reduceSum (vs : List ℚ) : Cell := .num (vs.foldl (· + ·) 0)

/-- groupby(...)[c].mean(): missing values skipped, empty group is missing. -/
def reduceMean (vs : List ℚ) : Cell :=
  if vs.isEmpty then .na else .num (vs.foldl (· + ·) 0 / (vs.length : ℚ))

/-- groupby(...)[c].median(): middle of the sorted values, the mean of the
two middle ones for an even count; empty group is missing. -/
def reduceMedian (vs : List ℚ) : Cell :=
  if vs.isEmpty then .na
  else
    let s := sortQ vs
    let n := s.length
    if n % 2 = 1 then .num (s.getD (n / 2) 0)
    else .num ((s.getD (n / 2 - 1) 0 + s.getD (n / 2) 0) / 2)

/-- Rows the groupby keeps: those whose key has no missing cell
(pandas groupby default dropna=True drops the others). -/
def validRows (df : DF) (ks : List String) : List Row :=
  df.rows.filter (fun r => keyValid (rowKey r ks))

/-- Distinct keys, none of whose cells is missing, of the rows of a frame. -/
def validKeys (df : DF) (ks : List String) : List (List Cell) :=
  ((validRows df ks).map (fun r => rowKey r ks)).dedup

/-- Aggregated row of one group: the key cells followed by the reduction of
each selected column over the numeric cells of the rows of the group. -/
def aggRow (df : DF) (ks scols : List String) (red : List ℚ → Cell)
    (key : List Cell) : Row :=
  let grp := (validRows df ks).filter (fun r => decide (rowKey r ks = key))
  ks.zip key ++
    scols.map (fun c => (c, red (grp.filterMap (fun r => (getCellR r c).toNumOpt))))

/-- data.groupby(keyCols)[sumCols].agg.reset_index(): rows with a missing
key cell are dropped, groups are the distinct remaining keys, and the
output has the key columns followed by the reduced selected columns, one
row per group. -/
def groupAgg (df : DF) (ks scols : List String) (red : List ℚ → Cell) : DF :=
  { cols := ks ++ scols,
    rows := (validKeys df ks).map (aggRow df ks scols red) }

/-- Aggregation dispatch on the function name (src/app.py lines 62-70):
only sum, mean and median are supported; inside a supported branch the
groupby raises KeyError when a key column is absent. -/
def aggregateBy (df : DF) (groupCols scols : List String) (aggFunc : String) :
    Except PErr DF :=
  let ks := keyCols groupCols
  let run := fun (red : List ℚ → Cell) =>
    let missing := ks.filter (fun c => !df.cols.contains c)
    if missing.isEmpty then Except.ok (groupAgg df ks scols red)
    else Except.error (PErr.keyError missing)
  if aggFunc = "sum" then run reduceSum
  else if aggFunc = "mean" then run reduceMean
  else if aggFunc = "median" then run reduceMedian
  else .error .unsupportedAgg

/-- Serialisation of one cell for the output CSV: missing is empty, a
string is itself, a number is its canonical literal (an integer, or the
exact fraction form for a non-integral rational of the model). -/
def csvCell : Cell → String
  | .na => ""
  | .str s => s
  | .num q => if q.den = 1 then toString q.num else toString q.num ++ "/" ++ toString q.den

/-- Split a character list at every occurrence of a separator; inverse of
joinWith on separator-free parts. -/
def splitOnChar (sep : Char) : List Char → List (List Char)
  | [] => [[]]
  | c :: cs =>
    if c = sep then [] :: splitOnChar sep cs
    else
      match splitOnChar sep cs with
      | [] => [[c]]
      | g :: gs => (c :: g) :: gs

/-- Interpose a separator between parts. -/
def joinWith (sep : Char) : List (List Char) → List Char
  | [] => []
  | [g] => g
  | g :: gs => g ++ sep :: joinWith sep gs

/-- One CSV line from its fields, as characters. -/
def csvLineChars (fields : List String) : List Char :=
  joinWith ',' (fields.map String.toList)

/-- Fields of one output row. -/
def csvRowFields (r : Row) : List String := r.map (fun p => csvCell p.2)

/-- aggregated_data.to_csv(index=False): header line of the column names,
then one line per row, each line newline-terminated. -/
def csvWriteDF (df : DF) : String :=
  String.mk (joinWith '\n'
    (csvLineChars df.cols :: df.rows.map (fun r => csvLineChars (csvRowFields r))) ++ ['\n'])

/- ### pd.read_csv, the parse-back of the written CSV -/

/-- Default missing-value markers of pd.read_csv. -/
def naStrings : List String :=
  ["", "#N/A", "#N/A N/A", "#NA", "-1.#IND", "-1.#QNAN", "-NaN", "-nan",
   "1.#IND", "1.#QNAN", "<NA>", "N/A", "NA", "NULL", "NaN", "None", "n/a",
   "nan", "null"]

/-- Unsigned fraction literal num/den with a positive denominator. -/
def parseFracUnsigned (cs : List Char) : Option ℚ :=
  let d1 := cs.takeWhile Char.isDigit
  match cs.dropWhile Char.isDigit with
  | '/' :: d2 =>
      if !d1.isEmpty && !d2.isEmpty && d2.all Char.isDigit && digitsVal d2 ≠ 0 then
        some ((digitsVal d1 : ℚ) / (digitsVal d2 : ℚ))
      else none
  | _ => none

/-- Fraction literal with optional sign. -/
def parseFracQ (s : String) : Option ℚ :=
  match s.toList with
  | '-' :: rest => (parseFracUnsigned rest).map Neg.neg
  | cs => parseFracUnsigned cs

/-- Numeric recognition of the CSV reader: decimal literals as
pd.read_csv infers them, plus the exact fraction literals the model
writer emits for non-integral rationals. -/
def csvParseNum (s : String) : Option ℚ :=
  match toNumericQ s with
  | some q => some q
  | none => parseFracQ s

/-- A column of the parser is numeric when every one of its fields is a
missing marker or a numeric literal (pd.read_csv column type inference). -/
def isNumericColumn (rawRows : List (List String)) (j : Nat) : Bool :=
  rawRows.all (fun r =>
    naStrings.contains (r.getD j "") || (csvParseNum (r.getD j "")).isSome)

/-- Decode one field given whether its column was inferred numeric:
missing markers become missing; a field of a numeric column becomes its
number; any other field stays a string. -/
def decodeField (numeric : Bool) (v : String) : Cell :=
  if naStrings.contains v then Cell.na
  else if numeric then
    match csvParseNum v with
    | some q => Cell.num q
    | none => Cell.na
  else Cell.str v

/-- pd.read_csv of the produced text: blank lines skipped, first line the
header, remaining lines split on commas, each column type-inferred. -/
def csvParseDF (s : String) : DF :=
  match (splitOnChar '\n' s.toList).filter (fun l => !l.isEmpty) with
  | [] => ⟨[], []⟩
  | header :: rest =>
    let cols := (splitOnChar ',' header).map (fun cs => String.mk cs)
    let rawRows := rest.map (fun l => (splitOnChar ',' l).map (fun cs => String.mk cs))
    { cols := cols,
      rows := rawRows.map (fun raw =>
        cols.zip ((List.range cols.length).map (fun j =>
          decodeField (isNumericColumn rawRows j) (raw.getD j "")))) }

/-- process_file (src/app.py lines 26-87).  On success returns the
aggregated frame together with the written CSV snapshot; on any reported
error returns it and produces no output. -/
def process_file (fuzzy : Fuzzy) (file : UploadedFile) (sheet : Option String)
    (dateCol : String) (groupCols sumCols : List String) (aggFunc : String) :
    Except PErr (DF × String) :=
  match prepare fuzzy file sheet dateCol with
  | .error e => .error e
  | .ok data =>
    if sumCols.isEmpty then .error .noSumCols
    else
      let missing := sumCols.filter (fun c => !data.cols.contains c)
      if missing.isEmpty then
        match aggregateBy (data.coerceCols sumCols) groupCols sumCols aggFunc with
        | .error e => .error e
        | .ok adf => .ok (adf, csvWriteDF adf)
      else .error (.missingCols missing)

example : format_date noFuzzy (.str ("2024 05 (May " ++ ('\'').toString ++ "24)")) =
    some "01-05-2024" := by decide

example : format_date noFuzzy (.str ("2024 13 (May " ++ ('\'').toString ++ "24)")) = none := by
  decide

/- ### Shared concrete material for witnesses -/

/-- True exactly on a successful result. -/
def exceptOk {ε α : Type _} : Except ε α → Bool
  | .ok _ => true
  | .error _ => false

/-- Apostrophe as a string, for building sample inputs. -/
def apostrophe : String := ('\'').toString

/-- Sample date value in the special format: 2024, space, 05, space, and
May with an apostrophe-24 in parentheses. -/
def maySample : String := "2024 05 (May " ++ apostrophe ++ "24)"

/-- Sheet map of an uploaded file that is not a spreadsheet. -/
def noSheets : Option String → DF := fun _ => ⟨[], []⟩

/-- Uploaded CSV file with the given parsed content. -/
def mkCsvFile (df : DF) : UploadedFile := ⟨"data.csv", noSheets, df⟩

/- ### Claim C1 -/

/-- When the special regex matches, format_date never consults the fuzzy
parser: the try body is decided by the to_datetime call alone. -/
theorem format_date_fuzzy_irrelevant (f g : Fuzzy) (s : String) (y m : Nat)
    (h : matchSpecial s = some (y, m)) :
    format_date f (.str s) = format_date g (.str s) := by
  simp only [format_date, format_date_try, h]

/-- C1 counterexample: the maySample variant with month part 13 matches the
special pattern (four digits, space, two digits, space, parenthesized month
name and two-digit year), yet format_date returns None instead of
"01-13-2024", because pd.to_datetime raises on month 13 and the except
handler turns the exception into None. -/
theorem c1_counterexample :
    matchSpecial ("2024 13 (May " ++ apostrophe ++ "24)") = some (2024, 13) ∧
    format_date noFuzzy (.str ("2024 13 (May " ++ apostrophe ++ "24)")) = none := by
  decide

/-- C1 (amended): for every input string matching the special pattern whose
two-digit part is a real month 01-12 and whose year-month lies inside the
pandas Timestamp range (1677-10 to 2262-04 for day 1), format_date returns
the canonical string "01-MM-YYYY", for every behaviour of the fuzzy
parser. -/
theorem c1_special_pattern (fuzzy : Fuzzy) (s : String) (y m : Nat)
    (h : matchSpecial s = some (y, m)) (h1 : 1 ≤ m) (h2 : m ≤ 12)
    (h3 : ymIndex 1677 10 ≤ ymIndex y m) (h4 : ymIndex y m ≤ ymIndex 2262 4) :
    format_date fuzzy (.str s) = some ("01-" ++ pad2 m ++ "-" ++ pad4 y) := by
  have hd : toDatetimeFirstOfMonth y m = some (y, m) := by
    unfold toDatetimeFirstOfMonth
    rw [if_pos ⟨h1, h2, h3, h4⟩]
  simp only [format_date, Cell.isna, format_date_try, h, hd, Bool.false_eq_true,
    if_false, strfDMY]
  rfl

/-- C1 witness: the sample value maySample is mapped to "01-05-2024". -/
theorem c1_special_pattern_witness :
    matchSpecial maySample = some (2024, 5) ∧
    format_date noFuzzy (.str maySample) = some ("01-" ++ pad2 5 ++ "-" ++ pad4 2024) :=
  ⟨by decide, c1_special_pattern noFuzzy maySample 2024 5 (by decide) (by decide)
    (by decide) (by decide) (by decide)⟩

/- ### Claim C8 -/

/-- C8: format_date is total; every exception raised inside its try body
(a TypeError from re.match on a non-string, an invalid or out-of-range
date in pd.to_datetime, or any failure of the fuzzy parser) is caught and
turned into the absent result None, affecting that value only. -/
theorem c8_exceptions_caught (fuzzy : Fuzzy) (c : Cell) (e : String)
    (h : format_date_try fuzzy c = .error e) : format_date fuzzy c = none := by
  unfold format_date
  cases hna : c.isna
  · simp only [hna, Bool.false_eq_true, if_false, h]
  · simp only [hna, if_true]

/-- C8 witness: a numeric cell makes re.match raise TypeError and
format_date returns None. -/
theorem c8_exceptions_caught_witness : format_date noFuzzy (.num 5) = none :=
  c8_exceptions_caught noFuzzy (.num 5)
    "TypeError: expected string or bytes-like object" rfl

/- ### Claim C5 -/

/-- C5: format_date maps a missing date value to None, and every row of the
prepared table (the table process_file goes on to aggregate) has a present
"Formatted Month" cell: rows whose date value was missing or unparseable
were dropped, while processing continued with the remaining rows. -/
theorem c5_null_dates_dropped (fuzzy : Fuzzy) (file : UploadedFile)
    (sheet : Option String) (dateCol : String) (pdf : DF)
    (h : prepare fuzzy file sheet dateCol = .ok pdf) (r : Row) (hr : r ∈ pdf.rows) :
    format_date fuzzy .na = none ∧ (getCellR r fmCol).isna = false := by
  refine ⟨rfl, ?_⟩
  unfold prepare at h
  split at h
  · exact Except.noConfusion h
  · dsimp only at h
    split at h
    · injection h with h'
      subst h'
      simp only [DF.dropNaIn, List.mem_filter] at hr
      simpa using hr.2
    · exact Except.noConfusion h

/-- C5 witness: on a one-row file whose date cell is present the row is
kept with a present formatted month; the theorem applied to its prepared
frame. -/
theorem c5_null_dates_dropped_witness :
    format_date noFuzzy .na = none ∧
    (getCellR [("Month", .str maySample), ("Sales", .num 10),
               ("Formatted Month", .str "01-05-2024")] fmCol).isna = false :=
  c5_null_dates_dropped noFuzzy
    (mkCsvFile ⟨["Month", "Sales"], [[("Month", .str maySample), ("Sales", .num 10)]]⟩)
    none "Month"
    ⟨["Month", "Sales", "Formatted Month"],
     [[("Month", .str maySample), ("Sales", .num 10),
       ("Formatted Month", .str "01-05-2024")]]⟩
    (by decide)
    [("Month", .str maySample), ("Sales", .num 10),
     ("Formatted Month", .str "01-05-2024")]
    (by decide)

/- ### Claim C9 -/

/-- C9: a file whose name ends in neither ".xlsx" nor ".csv" makes
process_file fail with the unsupported-file-type error and produce no
output; a name ending in ".xlsx" is read as a spreadsheet with the selected
sheet, and a name ending in ".csv" is read as CSV. -/
theorem c9_extension_dispatch (fuzzy : Fuzzy) (file : UploadedFile)
    (sheet : Option String) (dateCol : String) (groupCols sumCols : List String)
    (aggFunc : String) :
    (strEndsWith file.name ".xlsx" = false → strEndsWith file.name ".csv" = false →
      process_file fuzzy file sheet dateCol groupCols sumCols aggFunc =
        .error .unsupportedFileType) ∧
    (strEndsWith file.name ".xlsx" = true →
      readFile file sheet = .ok (file.excelData sheet)) ∧
    (strEndsWith file.name ".xlsx" = false → strEndsWith file.name ".csv" = true →
      readFile file sheet = .ok file.csvData) := by
  refine ⟨fun h1 h2 => ?_, fun h1 => ?_, fun h1 h2 => ?_⟩
  · simp only [process_file, prepare, readFile, h1, h2, Bool.false_eq_true, if_false]
  · simp only [readFile, h1, if_true]
  · simp only [readFile, h1, h2, Bool.false_eq_true, if_false, if_true]

/-- C9 witness: a .txt upload is rejected with no output, a .xlsx upload is
read from its selected sheet, a .csv upload is read as CSV. -/
theorem c9_extension_dispatch_witness :
    process_file noFuzzy ⟨"data.txt", noSheets, ⟨[], []⟩⟩ none "Month" [] [] "sum" =
      .error .unsupportedFileType ∧
    readFile ⟨"book.xlsx", noSheets, ⟨[], []⟩⟩ (some "Sheet1") =
      .ok (noSheets (some "Sheet1")) ∧
    readFile ⟨"data.csv", noSheets, ⟨[], []⟩⟩ none = .ok (⟨[], []⟩ : DF) :=
  ⟨(c9_extension_dispatch noFuzzy ⟨"data.txt", noSheets, ⟨[], []⟩⟩ none "Month" [] []
      "sum").1 (by decide) (by decide),
   (c9_extension_dispatch noFuzzy ⟨"book.xlsx", noSheets, ⟨[], []⟩⟩ (some "Sheet1")
      "Month" [] [] "sum").2.1 (by decide),
   (c9_extension_dispatch noFuzzy ⟨"data.csv", noSheets, ⟨[], []⟩⟩ none "Month" [] []
      "sum").2.2 (by decide) (by decide)⟩

/- ### Claim C2 -/

/-- C2: when numeric columns are requested and some of them are not present
among the columns of the table being processed, process_file fails with the
missing-columns error naming exactly the missing ones, and produces no
output table and no output CSV. -/
theorem c2_missing_columns (fuzzy : Fuzzy) (file : UploadedFile)
    (sheet : Option String) (dateCol : String) (groupCols sumCols : List String)
    (aggFunc : String) (pdf : DF)
    (h : prepare fuzzy file sheet dateCol = .ok pdf)
    (hne : sumCols.isEmpty = false)
    (hmiss : (sumCols.filter (fun c => !pdf.cols.contains c)).isEmpty = false) :
    process_file fuzzy file sheet dateCol groupCols sumCols aggFunc =
      .error (.missingCols (sumCols.filter (fun c => !pdf.cols.contains c))) ∧
    exceptOk (process_file fuzzy file sheet dateCol groupCols sumCols aggFunc) =
      false := by
  have hp : process_file fuzzy file sheet dateCol groupCols sumCols aggFunc =
      .error (.missingCols (sumCols.filter (fun c => !pdf.cols.contains c))) := by
    simp only [process_file, h, hne, Bool.false_eq_true, if_false, hmiss]
  exact ⟨hp, by rw [hp]; rfl⟩

/-- C2 witness: requesting the absent column "Costs" on a one-row table
fails with the missing-columns error naming it. -/
theorem c2_missing_columns_witness :
    process_file noFuzzy
      (mkCsvFile ⟨["Month", "Region", "Sales"],
        [[("Month", .str maySample), ("Region", .str "A"), ("Sales", .num 10)]]⟩)
      none "Month" ["Region"] ["Costs"] "sum" =
      .error (.missingCols (["Costs"].filter (fun c =>
        !(["Month", "Region", "Sales", "Formatted Month"] : List String).contains c))) ∧
    exceptOk (process_file noFuzzy
      (mkCsvFile ⟨["Month", "Region", "Sales"],
        [[("Month", .str maySample), ("Region", .str "A"), ("Sales", .num 10)]]⟩)
      none "Month" ["Region"] ["Costs"] "sum") = false :=
  c2_missing_columns noFuzzy
    (mkCsvFile ⟨["Month", "Region", "Sales"],
      [[("Month", .str maySample), ("Region", .str "A"), ("Sales", .num 10)]]⟩)
    none "Month" ["Region"] ["Costs"] "sum"
    ⟨["Month", "Region", "Sales", "Formatted Month"],
     [[("Month", .str maySample), ("Region", .str "A"), ("Sales", .num 10),
       ("Formatted Month", .str "01-05-2024")]]⟩
    (by decide) (by decide) (by decide)

/- ### Claim C3 -/

/-- C3: for an aggregation-function name other than sum, mean and median,
process_file never produces an output table or CSV (first conjunct, with no
assumption on the rest of the input), and whenever the run reaches the
aggregation step — the file was read, the date column exists, numeric
columns were requested and all are present — the reported failure is
exactly the unsupported-aggregation-function error (second conjunct). -/
theorem c3_unsupported_agg (fuzzy : Fuzzy) (file : UploadedFile)
    (sheet : Option String) (dateCol : String) (groupCols sumCols : List String)
    (aggFunc : String)
    (hf1 : aggFunc ≠ "sum") (hf2 : aggFunc ≠ "mean") (hf3 : aggFunc ≠ "median") :
    exceptOk (process_file fuzzy file sheet dateCol groupCols sumCols aggFunc) =
      false ∧
    (∀ pdf, prepare fuzzy file sheet dateCol = .ok pdf →
      sumCols.isEmpty = false →
      (sumCols.filter (fun c => !pdf.cols.contains c)).isEmpty = true →
      process_file fuzzy file sheet dateCol groupCols sumCols aggFunc =
        .error .unsupportedAgg) := by
  have hagg : ∀ df : DF, aggregateBy df groupCols sumCols aggFunc =
      .error .unsupportedAgg := by
    intro df
    simp only [aggregateBy, if_neg hf1, if_neg hf2, if_neg hf3]
  constructor
  · unfold process_file
    split
    · rfl
    · split
      · rfl
      · dsimp only
        split
        · rw [hagg]; rfl
        · rfl
  · intro pdf hp hne hmiss
    simp only [process_file, hp, hne, Bool.false_eq_true, if_false, hmiss,
      if_true, hagg]

/-- C3 witness: requesting the reduction "max" on a valid one-row table is
rejected with the unsupported-aggregation error and no output. -/
theorem c3_unsupported_agg_witness :
    exceptOk (process_file noFuzzy
      (mkCsvFile ⟨["Month", "Region", "Sales"],
        [[("Month", .str maySample), ("Region", .str "A"), ("Sales", .num 10)]]⟩)
      none "Month" ["Region"] ["Sales"] "max") = false ∧
    process_file noFuzzy
      (mkCsvFile ⟨["Month", "Region", "Sales"],
        [[("Month", .str maySample), ("Region", .str "A"), ("Sales", .num 10)]]⟩)
      none "Month" ["Region"] ["Sales"] "max" = .error .unsupportedAgg :=
  ⟨(c3_unsupported_agg noFuzzy
      (mkCsvFile ⟨["Month", "Region", "Sales"],
        [[("Month", .str maySample), ("Region", .str "A"), ("Sales", .num 10)]]⟩)
      none "Month" ["Region"] ["Sales"] "max"
      (by decide) (by decide) (by decide)).1,
   (c3_unsupported_agg noFuzzy
      (mkCsvFile ⟨["Month", "Region", "Sales"],
        [[("Month", .str maySample), ("Region", .str "A"), ("Sales", .num 10)]]⟩)
      none "Month" ["Region"] ["Sales"] "max"
      (by decide) (by decide) (by decide)).2
    ⟨["Month", "Region", "Sales", "Formatted Month"],
     [[("Month", .str maySample), ("Region", .str "A"), ("Sales", .num 10),
       ("Formatted Month", .str "01-05-2024")]]⟩
    (by decide) (by decide) (by decide)⟩

/- ### Shape of a successful run -/

/-- A successful run factors through prepare and one of the three supported
reductions: the output frame is the groupAgg of the coerced prepared frame
and the CSV is its serialisation. -/
theorem process_file_ok_shape (fuzzy : Fuzzy) (file : UploadedFile)
    (sheet : Option String) (dateCol : String) (groupCols sumCols : List String)
    (aggFunc : String) (adf : DF) (csv : String)
    (h : process_file fuzzy file sheet dateCol groupCols sumCols aggFunc =
      .ok (adf, csv)) :
    ∃ pdf red, prepare fuzzy file sheet dateCol = .ok pdf ∧
      (red = reduceSum ∨ red = reduceMean ∨ red = reduceMedian) ∧
      sumCols.isEmpty = false ∧
      (sumCols.filter (fun c => !pdf.cols.contains c)).isEmpty = true ∧
      adf = groupAgg (pdf.coerceCols sumCols) (keyCols groupCols) sumCols red ∧
      csv = csvWriteDF adf := by
  unfold process_file at h
  split at h
  · exact Except.noConfusion h
  · rename_i pdf hprep
    split at h
    · exact Except.noConfusion h
    · rename_i hne
      dsimp only at h
      split at h
      · rename_i hmiss
        generalize hagg : aggregateBy (pdf.coerceCols sumCols) groupCols sumCols
          aggFunc = res at h
        cases res with
        | error e => exact Except.noConfusion h
        | ok adf2 =>
          injection h with h2
          injection h2 with ha hc
          subst ha
          refine ⟨pdf, ?_⟩
          unfold aggregateBy at hagg
          dsimp only at hagg
          split at hagg
          · split at hagg
            · injection hagg with h3
              exact ⟨reduceSum, hprep, Or.inl rfl, Bool.of_not_eq_true hne,
                hmiss, h3.symm, hc.symm⟩
            · exact Except.noConfusion hagg
          · split at hagg
            · split at hagg
              · injection hagg with h3
                exact ⟨reduceMean, hprep, Or.inr (Or.inl rfl), Bool.of_not_eq_true hne,
                  hmiss, h3.symm, hc.symm⟩
              · exact Except.noConfusion hagg
            · split at hagg
              · split at hagg
                · injection hagg with h3
                  exact ⟨reduceMedian, hprep, Or.inr (Or.inr rfl),
                    Bool.of_not_eq_true hne, hmiss, h3.symm, hc.symm⟩
                · exact Except.noConfusion hagg
              · exact Except.noConfusion hagg
      · exact Except.noConfusion h

/- ### Claim C10 -/

/-- Every row produced by groupAgg starts with its key cells, and none of
them is missing. -/
theorem groupAgg_row_key_valid (df : DF) (ks scols : List String)
    (red : List ℚ → Cell) (r : Row) (hr : r ∈ (groupAgg df ks scols red).rows) :
    ((r.take ks.length).map Prod.snd).all (fun c => !c.isna) = true := by
  simp only [groupAgg, List.mem_map] at hr
  obtain ⟨key, hkey, hrow⟩ := hr
  obtain ⟨r0, hr0, hk0⟩ := List.mem_map.1 (List.mem_dedup.1 hkey)
  have hlen : key.length = ks.length := by
    rw [← hk0]; simp [rowKey]
  have hvalid : keyValid key = true := by
    rw [← hk0]
    exact (List.mem_filter.1 hr0).2
  subst hrow
  unfold aggRow
  dsimp only
  rw [List.take_left' (by rw [List.length_zip, hlen, Nat.min_self]),
    List.map_snd_zip ks key (le_of_eq hlen)]
  exact hvalid

/-- C10: rows whose value in some selected group column is missing are
silently dropped by the groupby: in every successful run, each output row
has only present cells in its key columns (the formatted month and the
group columns), so a row with a missing group value contributes no output
row and causes no reported error. -/
theorem c10_missing_group_keys_dropped (fuzzy : Fuzzy) (file : UploadedFile)
    (sheet : Option String) (dateCol : String) (groupCols sumCols : List String)
    (aggFunc : String) (adf : DF) (csv : String)
    (h : process_file fuzzy file sheet dateCol groupCols sumCols aggFunc =
      .ok (adf, csv))
    (r : Row) (hr : r ∈ adf.rows) :
    ((r.take (keyCols groupCols).length).map Prod.snd).all (fun c => !c.isna) =
      true := by
  obtain ⟨pdf, red, hprep, hred, hne, hmiss, hadf, hcsv⟩ :=
    process_file_ok_shape fuzzy file sheet dateCol groupCols sumCols aggFunc
      adf csv h
  subst hadf
  exact groupAgg_row_key_valid _ _ _ _ r hr

/-- C10 witness: a run on a table with one well-keyed row and one row whose
Region is missing succeeds, outputs only the well-keyed group, and the
key cells of the output row are present. -/
theorem c10_missing_group_keys_dropped_witness :
    (([("Formatted Month", Cell.str "01-05-2024"), ("Region", Cell.str "A"),
       ("Sales", Cell.num 20)].take (keyCols ["Region"]).length).map
      Prod.snd).all (fun c => !c.isna) = true :=
  c10_missing_group_keys_dropped noFuzzy
    (mkCsvFile ⟨["Month", "Region", "Sales"],
      [[("Month", .str maySample), ("Region", .str "A"), ("Sales", .num 20)],
       [("Month", .str maySample), ("Region", .na), ("Sales", .num 7)]]⟩)
    none "Month" ["Region"] ["Sales"] "sum"
    ⟨["Formatted Month", "Region", "Sales"],
     [[("Formatted Month", Cell.str "01-05-2024"), ("Region", Cell.str "A"),
       ("Sales", Cell.num 20)]]⟩
    ("Formatted Month,Region,Sales\n01-05-2024,A,20\n")
    (by decide)
    [("Formatted Month", Cell.str "01-05-2024"), ("Region", Cell.str "A"),
     ("Sales", Cell.num 20)]
    (by decide)

/- ### Claim C6 -/

/-- C6 counterexample: a table whose single row has the present date value
maySample and a missing Region survives date-normalization
filtering (the prepared table has one row, with aggregation key
["01-05-2024", missing]), yet the successful aggregated output has zero
rows: the groupby drops keys containing a missing cell, so the output does
not have one row per key combination present after filtering. -/
theorem c6_counterexample :
    process_file noFuzzy
      (mkCsvFile ⟨["Month", "Region", "Sales"],
        [[("Month", .str maySample), ("Region", .na), ("Sales", .num 10)]]⟩)
      none "Month" ["Region"] ["Sales"] "sum" =
      .ok (⟨["Formatted Month", "Region", "Sales"], []⟩,
           "Formatted Month,Region,Sales\n") ∧
    prepare noFuzzy
      (mkCsvFile ⟨["Month", "Region", "Sales"],
        [[("Month", .str maySample), ("Region", .na), ("Sales", .num 10)]]⟩)
      none "Month" =
      .ok ⟨["Month", "Region", "Sales", "Formatted Month"],
        [[("Month", .str maySample), ("Region", .na), ("Sales", .num 10),
          ("Formatted Month", .str "01-05-2024")]]⟩ ∧
    rowKey [("Month", .str maySample), ("Region", .na), ("Sales", .num 10),
      ("Formatted Month", .str "01-05-2024")] (keyCols ["Region"]) =
      [.str "01-05-2024", .na] := by
  decide

/-- C6 (amended): in every successful run the aggregated table has columns
"Formatted Month", then the group columns, then the requested numeric
columns, and exactly one row per unique key combination present after
date-normalization filtering whose cells are all non-missing (keys with a
missing group value are dropped by the groupby). -/
theorem c6_one_row_per_key (fuzzy : Fuzzy) (file : UploadedFile)
    (sheet : Option String) (dateCol : String) (groupCols sumCols : List String)
    (aggFunc : String) (pdf adf : DF) (csv : String)
    (hprep : prepare fuzzy file sheet dateCol = .ok pdf)
    (h : process_file fuzzy file sheet dateCol groupCols sumCols aggFunc =
      .ok (adf, csv)) :
    adf.cols = fmCol :: (groupCols ++ sumCols) ∧
    adf.rows.length =
      (validKeys (pdf.coerceCols sumCols) (keyCols groupCols)).length ∧
    (validKeys (pdf.coerceCols sumCols) (keyCols groupCols)).Nodup ∧
    (∀ k, k ∈ validKeys (pdf.coerceCols sumCols) (keyCols groupCols) ↔
      ∃ r ∈ (pdf.coerceCols sumCols).rows,
        keyValid (rowKey r (keyCols groupCols)) = true ∧
        rowKey r (keyCols groupCols) = k) := by
  obtain ⟨pdf2, red, hprep2, hred, hne, hmiss, hadf, hcsv⟩ :=
    process_file_ok_shape fuzzy file sheet dateCol groupCols sumCols aggFunc
      adf csv h
  rw [hprep] at hprep2
  injection hprep2 with hpdf
  subst hpdf
  subst hadf
  refine ⟨rfl, ?_, List.nodup_dedup _, ?_⟩
  · simp [groupAgg]
  · intro k
    simp only [validKeys, validRows, List.mem_dedup, List.mem_map,
      List.mem_filter]
    constructor
    · rintro ⟨r, ⟨hr, hv⟩, hk⟩
      exact ⟨r, hr, hk ▸ hv, hk⟩
    · rintro ⟨r, hr, hv, hk⟩
      exact ⟨r, ⟨hr, hk ▸ hv⟩, hk⟩

/-- C6 witness: on a two-row table collapsing to one group the output has
header Formatted Month, Region, Sales and exactly one row, matching the one
valid key of the prepared table. -/
theorem c6_one_row_per_key_witness :
    (⟨["Formatted Month", "Region", "Sales"],
      [[("Formatted Month", Cell.str "01-05-2024"), ("Region", Cell.str "A"),
        ("Sales", Cell.num 30)]]⟩ : DF).cols = fmCol :: (["Region"] ++ ["Sales"]) ∧
    (⟨["Formatted Month", "Region", "Sales"],
      [[("Formatted Month", Cell.str "01-05-2024"), ("Region", Cell.str "A"),
        ("Sales", Cell.num 30)]]⟩ : DF).rows.length =
      (validKeys (DF.coerceCols ⟨["Month", "Region", "Sales", "Formatted Month"],
        [[("Month", .str maySample), ("Region", .str "A"), ("Sales", .num 10),
          ("Formatted Month", .str "01-05-2024")],
         [("Month", .str maySample), ("Region", .str "A"), ("Sales", .num 20),
          ("Formatted Month", .str "01-05-2024")]]⟩ ["Sales"])
        (keyCols ["Region"])).length :=
  have h := c6_one_row_per_key noFuzzy
    (mkCsvFile ⟨["Month", "Region", "Sales"],
      [[("Month", .str maySample), ("Region", .str "A"), ("Sales", .num 10)],
       [("Month", .str maySample), ("Region", .str "A"), ("Sales", .num 20)]]⟩)
    none "Month" ["Region"] ["Sales"]
    "sum"
    ⟨["Month", "Region", "Sales", "Formatted Month"],
     [[("Month", .str maySample), ("Region", .str "A"), ("Sales", .num 10),
       ("Formatted Month", .str "01-05-2024")],
      [("Month", .str maySample), ("Region", .str "A"), ("Sales", .num 20),
       ("Formatted Month", .str "01-05-2024")]]⟩
    ⟨["Formatted Month", "Region", "Sales"],
     [[("Formatted Month", Cell.str "01-05-2024"), ("Region", Cell.str "A"),
       ("Sales", Cell.num 30)]]⟩
    ("Formatted Month,Region,Sales\n01-05-2024,A,30\n")
    (by decide) (by decide)
  ⟨h.1, h.2.1⟩

/- ### Claim C4 -/

/-- Cells (with their column names) that agree up to non-numeric content of
the selected columns: either equal outright, or sitting in the same
selected column with both coercing to missing. -/
def cellNaEquiv (scols : List String) (p q : String × Cell) : Bool :=
  decide (p = q) ||
    (decide (p.1 = q.1) && scols.contains p.1 &&
     decide (p.2.coerceNum = Cell.na) && decide (q.2.coerceNum = Cell.na))

/-- Rows that agree cell by cell up to non-numeric content of the selected
columns. -/
def rowNaEquiv (scols : List String) : Row → Row → Bool
  | [], [] => true
  | p :: ps, q :: qs => cellNaEquiv scols p q && rowNaEquiv scols ps qs
  | _, _ => false

/-- Row lists that agree row by row up to non-numeric content of the
selected columns. -/
def rowsNaEquiv (scols : List String) : List Row → List Row → Bool
  | [], [] => true
  | r :: rs, t :: ts => rowNaEquiv scols r t && rowsNaEquiv scols rs ts
  | _, _ => false

/-- Equivalent cells coerce to the same cell. -/
theorem cellNaEquiv_coerce (scols : List String) (p q : String × Cell)
    (h : cellNaEquiv scols p q = true) :
    (if scols.contains p.1 then (p.1, p.2.coerceNum) else p) =
    (if scols.contains q.1 then (q.1, q.2.coerceNum) else q) := by
  simp only [cellNaEquiv, Bool.or_eq_true, Bool.and_eq_true,
    decide_eq_true_eq] at h
  rcases h with h | ⟨⟨⟨h1, h2⟩, h3⟩, h4⟩
  · subst h; rfl
  · rw [if_pos h2, if_pos (h1 ▸ h2), h1, h3, h4]

/-- Equivalent rows coerce to the same row. -/
theorem rowNaEquiv_coerce (scols : List String) (r t : Row)
    (h : rowNaEquiv scols r t = true) :
    r.map (fun p => if scols.contains p.1 then (p.1, p.2.coerceNum) else p) =
    t.map (fun p => if scols.contains p.1 then (p.1, p.2.coerceNum) else p) := by
  induction r generalizing t with
  | nil => cases t with
    | nil => rfl
    | cons q qs => exact Bool.noConfusion h
  | cons p ps ih =>
    cases t with
    | nil => exact Bool.noConfusion h
    | cons q qs =>
      simp only [rowNaEquiv, Bool.and_eq_true] at h
      simp only [List.map_cons, cellNaEquiv_coerce scols p q h.1, ih qs h.2]

/-- Equivalent row lists coerce to the same row list. -/
theorem coerceRows_naEquiv (scols : List String) (rows rows2 : List Row)
    (h : rowsNaEquiv scols rows rows2 = true) :
    rows.map (fun r =>
      r.map (fun p => if scols.contains p.1 then (p.1, p.2.coerceNum) else p)) =
    rows2.map (fun r =>
      r.map (fun p => if scols.contains p.1 then (p.1, p.2.coerceNum) else p)) := by
  induction rows generalizing rows2 with
  | nil => cases rows2 with
    | nil => rfl
    | cons t ts => exact Bool.noConfusion h
  | cons r rs ih =>
    cases rows2 with
    | nil => exact Bool.noConfusion h
    | cons t ts =>
      simp only [rowsNaEquiv, Bool.and_eq_true] at h
      simp only [List.map_cons, rowNaEquiv_coerce scols r t h.1, ih ts h.2]

/-- Equivalent frames coerce to the same frame. -/
theorem coerceCols_naEquiv (df df2 : DF) (scols : List String)
    (hcols : df.cols = df2.cols)
    (hrows : rowsNaEquiv scols df.rows df2.rows = true) :
    df.coerceCols scols = df2.coerceCols scols := by
  unfold DF.coerceCols
  simp only [DF.mk.injEq]
  exact ⟨hcols, coerceRows_naEquiv scols df.rows df2.rows hrows⟩

/-- A supported reduction with present key columns always succeeds. -/
theorem aggregateBy_ok (df : DF) (groupCols scols : List String)
    (aggFunc : String)
    (hf : aggFunc = "sum" ∨ aggFunc = "mean" ∨ aggFunc = "median")
    (hk : ((keyCols groupCols).filter
      (fun c => !df.cols.contains c)).isEmpty = true) :
    exceptOk (aggregateBy df groupCols scols aggFunc) = true := by
  rcases hf with hf | hf | hf <;> subst hf <;>
    unfold aggregateBy <;> dsimp only
  · rw [if_pos rfl, if_pos hk]; rfl
  · rw [if_neg (by decide), if_pos rfl, if_pos hk]; rfl
  · rw [if_neg (by decide), if_neg (by decide), if_pos rfl, if_pos hk]; rfl

/-- C4: selected numeric columns are coerced before grouping, and a
non-numeric entry is exactly a missing value for the reduction: replacing
any non-numeric entries of the selected columns by any other non-numeric
entries (in particular by missing values) leaves the aggregation result
unchanged — they are excluded from the reduction of each group — and with a
supported reduction and present key columns the run always succeeds, so
such entries never abort it. -/
theorem c4_nonnumeric_excluded (df df2 : DF) (groupCols sumCols : List String)
    (aggFunc : String)
    (hcols : df.cols = df2.cols)
    (hrows : rowsNaEquiv sumCols df.rows df2.rows = true)
    (hf : aggFunc = "sum" ∨ aggFunc = "mean" ∨ aggFunc = "median")
    (hk : ((keyCols groupCols).filter
      (fun c => !df.cols.contains c)).isEmpty = true) :
    exceptOk (aggregateBy (df.coerceCols sumCols) groupCols sumCols aggFunc) =
      true ∧
    aggregateBy (df.coerceCols sumCols) groupCols sumCols aggFunc =
      aggregateBy (df2.coerceCols sumCols) groupCols sumCols aggFunc := by
  refine ⟨aggregateBy_ok _ _ _ _ hf hk, ?_⟩
  rw [coerceCols_naEquiv df df2 sumCols hcols hrows]

/-- C4 witness: replacing the non-numeric Sales entry "junk" by a missing
value leaves the summed output unchanged, and the run succeeds. -/
theorem c4_nonnumeric_excluded_witness :
    exceptOk (aggregateBy
      (DF.coerceCols ⟨["Formatted Month", "Region", "Sales"],
        [[("Formatted Month", .str "01-05-2024"), ("Region", .str "A"),
          ("Sales", .str "junk")],
         [("Formatted Month", .str "01-05-2024"), ("Region", .str "A"),
          ("Sales", .num 20)]]⟩ ["Sales"])
      ["Region"] ["Sales"] "sum") = true ∧
    aggregateBy
      (DF.coerceCols ⟨["Formatted Month", "Region", "Sales"],
        [[("Formatted Month", .str "01-05-2024"), ("Region", .str "A"),
          ("Sales", .str "junk")],
         [("Formatted Month", .str "01-05-2024"), ("Region", .str "A"),
          ("Sales", .num 20)]]⟩ ["Sales"])
      ["Region"] ["Sales"] "sum" =
    aggregateBy
      (DF.coerceCols ⟨["Formatted Month", "Region", "Sales"],
        [[("Formatted Month", .str "01-05-2024"), ("Region", .str "A"),
          ("Sales", .na)],
         [("Formatted Month", .str "01-05-2024"), ("Region", .str "A"),
          ("Sales", .num 20)]]⟩ ["Sales"])
      ["Region"] ["Sales"] "sum" :=
  c4_nonnumeric_excluded
    ⟨["Formatted Month", "Region", "Sales"],
     [[("Formatted Month", .str "01-05-2024"), ("Region", .str "A"),
       ("Sales", .str "junk")],
      [("Formatted Month", .str "01-05-2024"), ("Region", .str "A"),
       ("Sales", .num 20)]]⟩
    ⟨["Formatted Month", "Region", "Sales"],
     [[("Formatted Month", .str "01-05-2024"), ("Region", .str "A"),
       ("Sales", .na)],
      [("Formatted Month", .str "01-05-2024"), ("Region", .str "A"),
       ("Sales", .num 20)]]⟩
    ["Region"] ["Sales"] "sum"
    (by decide) (by decide) (Or.inl rfl) (by decide)

/- ### Claim C7: split/join lemmas -/

/-- Splitting a separator-free chunk yields the chunk alone. -/
theorem splitOnChar_sepFree (sep : Char) (g : List Char)
    (h : ∀ c ∈ g, c ≠ sep) : splitOnChar sep g = [g] := by
  induction g with
  | nil => rfl
  | cons c cs ih =>
    rw [splitOnChar, if_neg (h c (List.mem_cons_self c cs)),
      ih (fun x hx => h x (List.mem_cons_of_mem c hx))]

/-- Splitting a separator-free chunk followed by a separator peels the
chunk off. -/
theorem splitOnChar_chunk (sep : Char) (g rest : List Char)
    (h : ∀ c ∈ g, c ≠ sep) :
    splitOnChar sep (g ++ sep :: rest) = g :: splitOnChar sep rest := by
  induction g with
  | nil => rw [List.nil_append, splitOnChar, if_pos rfl]
  | cons c cs ih =>
    rw [List.cons_append, splitOnChar, if_neg (h c (List.mem_cons_self c cs)),
      ih (fun x hx => h x (List.mem_cons_of_mem c hx))]

/-- splitOnChar is a left inverse of joinWith on separator-free parts. -/
theorem splitOnChar_joinWith (sep : Char) (ls : List (List Char))
    (hne : ls ≠ [])
    (hfree : ∀ g ∈ ls, ∀ c ∈ g, c ≠ sep) :
    splitOnChar sep (joinWith sep ls) = ls := by
  induction ls with
  | nil => exact absurd rfl hne
  | cons g gs ih =>
    cases gs with
    | nil =>
      rw [joinWith, splitOnChar_sepFree sep g (hfree g (List.mem_cons_self g []))]
    | cons g2 gs2 =>
      have ihh := ih (by intro hh; cases hh)
        (fun x hx => hfree x (List.mem_cons_of_mem g hx))
      rw [joinWith, splitOnChar_chunk sep g (joinWith sep (g2 :: gs2))
        (hfree g (List.mem_cons_self g (g2 :: gs2))), ihh]
      intro hh
      cases hh

/-- Appending an empty final part appends a separator to the join. -/
theorem joinWith_append_nil (sep : Char) (ls : List (List Char))
    (hne : ls ≠ []) :
    joinWith sep (ls ++ [[]]) = joinWith sep ls ++ [sep] := by
  induction ls with
  | nil => exact absurd rfl hne
  | cons g gs ih =>
    cases gs with
    | nil => rfl
    | cons g2 gs2 =>
      show g ++ sep :: joinWith sep ((g2 :: gs2) ++ [[]]) =
        (g ++ sep :: joinWith sep (g2 :: gs2)) ++ [sep]
      rw [ih (List.cons_ne_nil g2 gs2), List.append_assoc]
      rfl

/-- Rebuilding a string from its characters is the identity. -/
theorem stringMk_toList (s : String) : String.mk s.toList = s := rfl

/- ### Claim C7: field and column conditions -/

/-- Field usable in an unquoted CSV: no comma, no newline. -/
def csvFieldOk (s : String) : Bool :=
  s.toList.all (fun c => decide (c ≠ ',') && decide (c ≠ '\n'))

/-- Cells of column j of a frame, by position. -/
def colCells (df : DF) (j : Nat) : List Cell :=
  df.rows.map (fun r => (r.getD j ("", Cell.na)).2)

/-- Cell a numeric column may hold: missing, or a number whose CSV
serialisation is no missing marker and parses back to the same number. -/
def numCellOk : Cell → Bool
  | .na => true
  | .num q => !naStrings.contains (csvCell (.num q)) &&
      decide (csvParseNum (csvCell (.num q)) = some q)
  | .str _ => false

/-- Cell a string column may hold: missing, or a string that is neither a
missing marker nor numeric-looking. -/
def strCellOk : Cell → Bool
  | .na => true
  | .str s => !naStrings.contains s && (csvParseNum s).isNone
  | .num _ => false

/-- A column round-trips when it is uniformly numeric or uniformly
string-valued in the above sense. -/
def colOk (cells : List Cell) : Bool :=
  cells.all numCellOk || cells.all strCellOk

/-- Characters of a join are the separator or characters of the parts. -/
theorem mem_joinWith (sep : Char) (ls : List (List Char)) (c : Char)
    (h : c ∈ joinWith sep ls) : c = sep ∨ ∃ g ∈ ls, c ∈ g := by
  induction ls with
  | nil => cases h
  | cons g gs ih =>
    cases gs with
    | nil => exact Or.inr ⟨g, List.mem_cons_self g [], h⟩
    | cons g2 gs2 =>
      rcases List.mem_append.1 h with h | h
      · exact Or.inr ⟨g, List.mem_cons_self g (g2 :: gs2), h⟩
      · rcases List.mem_cons.1 h with h | h
        · exact Or.inl h
        · rcases ih h with h | ⟨g3, hg3, hc3⟩
          · exact Or.inl h
          · exact Or.inr ⟨g3, List.mem_cons_of_mem g hg3, hc3⟩

/-- Fields without commas: the field list. -/
theorem csvField_no_comma (f : String) (h : csvFieldOk f = true) :
    ∀ c ∈ f.toList, c ≠ ',' := by
  intro c hc
  have := List.all_eq_true.1 h c hc
  simp only [Bool.and_eq_true, decide_eq_true_eq] at this
  exact this.1

/-- Lines built from clean fields contain no newline. -/
theorem csvLineChars_no_newline (fields : List String)
    (h : ∀ f ∈ fields, csvFieldOk f = true) :
    ∀ c ∈ csvLineChars fields, c ≠ '\n' := by
  intro c hc
  rcases mem_joinWith ',' (fields.map String.toList) c hc with h1 | ⟨g, hg, hcg⟩
  · subst h1; decide
  · rcases List.mem_map.1 hg with ⟨f, hf, rfl⟩
    have := List.all_eq_true.1 (h f hf) c hcg
    simp only [Bool.and_eq_true, decide_eq_true_eq] at this
    exact this.2

/-- Rebuilding each string of a list from its characters is the identity. -/
theorem map_mk_toList (fields : List String) :
    (fields.map String.toList).map String.mk = fields := by
  induction fields with
  | nil => rfl
  | cons f fs ih => simp only [List.map_cons, ih, stringMk_toList]

/-- Parsing a written CSV line recovers its fields. -/
theorem parse_csvLineChars (fields : List String) (hne : fields ≠ [])
    (h : ∀ f ∈ fields, csvFieldOk f = true) :
    (splitOnChar ',' (csvLineChars fields)).map String.mk = fields := by
  unfold csvLineChars
  rw [splitOnChar_joinWith ',' (fields.map String.toList)
    (by simpa using hne)
    (by
      intro g hg c hc
      rcases List.mem_map.1 hg with ⟨f, hf, rfl⟩
      exact csvField_no_comma f (h f hf) c hc)]
  exact map_mk_toList fields

/-- Field j of a written row is the serialisation of cell j. -/
theorem csvRowFields_getD (r : Row) (j : Nat) (hj : j < r.length) :
    (csvRowFields r).getD j "" = csvCell (r.getD j ("", Cell.na)).2 := by
  unfold csvRowFields
  rw [List.getD_eq_getElem?_getD, List.getElem?_map,
    List.getElem?_eq_getElem hj, List.getD_eq_getElem?_getD,
    List.getElem?_eq_getElem hj]
  rfl

/-- A missing marker decodes to missing whatever the column type. -/
theorem decodeField_empty (b : Bool) : decodeField b "" = .na := by
  cases b <;> decide

/-- Decoding field j of a written row recovers cell j, when column j is
uniformly typed. -/
theorem decode_cell (df : DF) (hwf : DF.WF df) (r : Row) (hr : r ∈ df.rows)
    (j : Nat) (hj : j < df.cols.length)
    (hok : colOk (colCells df j) = true) :
    decodeField (isNumericColumn (df.rows.map csvRowFields) j)
      ((csvRowFields r).getD j "") = (r.getD j ("", Cell.na)).2 := by
  have hlen : ∀ r2 ∈ df.rows, r2.length = df.cols.length := by
    intro r2 h2
    rw [← hwf r2 h2]
    simp
  have hfield : ∀ r2 ∈ df.rows, (csvRowFields r2).getD j "" =
      csvCell (r2.getD j ("", Cell.na)).2 := by
    intro r2 h2
    exact csvRowFields_getD r2 j (by rw [hlen r2 h2]; exact hj)
  have hmemcol : ∀ r2 ∈ df.rows, (r2.getD j ("", Cell.na)).2 ∈ colCells df j := by
    intro r2 h2
    exact List.mem_map_of_mem _ h2
  rw [hfield r hr]
  unfold colOk at hok
  rw [Bool.or_eq_true] at hok
  rcases hok with hnum | hstr
  · have hcells := List.all_eq_true.1 hnum
    have hnc : isNumericColumn (df.rows.map csvRowFields) j = true := by
      unfold isNumericColumn
      apply List.all_eq_true.2
      intro raw hraw
      rcases List.mem_map.1 hraw with ⟨r2, h2, rfl⟩
      rw [hfield r2 h2]
      have hthis := hcells _ (hmemcol r2 h2)
      cases hc2 : (r2.getD j ("", Cell.na)).2 with
      | na => decide
      | num q =>
        rw [hc2] at hthis
        simp only [numCellOk, Bool.and_eq_true, Bool.not_eq_true',
          decide_eq_true_eq] at hthis
        rw [hthis.2]
        simp
      | str s =>
        rw [hc2] at hthis
        exact Bool.noConfusion hthis
    rw [hnc]
    have hthis := hcells _ (hmemcol r hr)
    cases hc : (r.getD j ("", Cell.na)).2 with
    | na => decide
    | num q =>
      rw [hc] at hthis
      simp only [numCellOk, Bool.and_eq_true, Bool.not_eq_true',
        decide_eq_true_eq] at hthis
      unfold decodeField
      rw [if_neg (by rw [hthis.1]; exact Bool.noConfusion), if_pos rfl, hthis.2]
    | str s =>
      rw [hc] at hthis
      exact Bool.noConfusion hthis
  · have hcells := List.all_eq_true.1 hstr
    have hthis := hcells _ (hmemcol r hr)
    cases hc : (r.getD j ("", Cell.na)).2 with
    | na => exact decodeField_empty _
    | num q =>
      rw [hc] at hthis
      exact Bool.noConfusion hthis
    | str s =>
      rw [hc] at hthis
      simp only [strCellOk, Bool.and_eq_true, Bool.not_eq_true',
        Option.isNone_iff_eq_none] at hthis
      have hnc : isNumericColumn (df.rows.map csvRowFields) j = false := by
        unfold isNumericColumn
        apply List.all_eq_false.2
        refine ⟨csvRowFields r, List.mem_map_of_mem _ hr, ?_⟩
        rw [hfield r hr, hc]
        show ¬((naStrings.contains s || (csvParseNum s).isSome) = true)
        rw [hthis.1, hthis.2]
        exact Bool.noConfusion
      have hcontains : naStrings.contains (csvCell (.str s)) = false := hthis.1
      rw [hnc]
      unfold decodeField
      rw [if_neg (by rw [hcontains]; exact Bool.noConfusion)]
      rfl

/-- A written row decodes back to itself. -/
theorem reconstruct_row (df : DF) (hwf : DF.WF df) (r : Row) (hr : r ∈ df.rows)
    (hcolok : ∀ j, j < df.cols.length → colOk (colCells df j) = true) :
    df.cols.zip ((List.range df.cols.length).map (fun j =>
      decodeField (isNumericColumn (df.rows.map csvRowFields) j)
        ((csvRowFields r).getD j ""))) = r := by
  have hlenr : r.length = df.cols.length := by rw [← hwf r hr]; simp
  have hX : (List.range df.cols.length).map (fun j =>
      decodeField (isNumericColumn (df.rows.map csvRowFields) j)
        ((csvRowFields r).getD j "")) = r.map Prod.snd := by
    apply List.ext_getElem?
    intro n
    by_cases hn : n < df.cols.length
    · rw [List.getElem?_map, List.getElem?_range hn, List.getElem?_map,
        List.getElem?_eq_getElem (show n < r.length by rw [hlenr]; exact hn)]
      simp only [Option.map_some']
      rw [decode_cell df hwf r hr n hn (hcolok n hn)]
      rw [List.getD_eq_getElem?_getD,
        List.getElem?_eq_getElem (show n < r.length by rw [hlenr]; exact hn)]
      rfl
    · rw [List.getElem?_eq_none (by simp [hlenr]; omega),
        List.getElem?_eq_none (by simp; omega)]
  rw [hX]
  exact (List.zip_of_prod (hwf r hr) rfl).symm

/-- C7 (amended): writing the aggregated table to CSV and parsing it back
reproduces the table exactly, provided the table is well-formed with a
non-empty header, no field contains a comma or newline, no written line is
blank, and each column is uniformly typed: either numbers (whose literals
are no missing markers and parse back exactly) and missing values, or
strings that are neither missing markers nor numeric-looking, and missing
values.  Without these provisos the round trip can change cells, as the
counterexample shows. -/
theorem c7_roundtrip (df : DF)
    (hwf : DF.WF df)
    (hcols : df.cols ≠ [])
    (hfieldsH : ∀ f ∈ df.cols, csvFieldOk f = true)
    (hfieldsR : ∀ r ∈ df.rows, ∀ f ∈ csvRowFields r, csvFieldOk f = true)
    (hheader : csvLineChars df.cols ≠ [])
    (hblank : ∀ r ∈ df.rows, csvLineChars (csvRowFields r) ≠ [])
    (hcolok : ∀ j, j < df.cols.length → colOk (colCells df j) = true) :
    csvParseDF (csvWriteDF df) = df := by
  have hlinesfree : ∀ g ∈ csvLineChars df.cols ::
      df.rows.map (fun r => csvLineChars (csvRowFields r)),
      ∀ c ∈ g, c ≠ '\n' := by
    intro g hg
    rcases List.mem_cons.1 hg with rfl | hg
    · exact csvLineChars_no_newline df.cols hfieldsH
    · rcases List.mem_map.1 hg with ⟨r, hrr, rfl⟩
      exact csvLineChars_no_newline _ (hfieldsR r hrr)
  have hsplit : splitOnChar '\n' ((csvWriteDF df).toList) =
      (csvLineChars df.cols ::
        df.rows.map (fun r => csvLineChars (csvRowFields r))) ++ [[]] := by
    show splitOnChar '\n' (joinWith '\n' (csvLineChars df.cols ::
      df.rows.map (fun r => csvLineChars (csvRowFields r))) ++ ['\n']) = _
    rw [← joinWith_append_nil '\n' _ (List.cons_ne_nil _ _)]
    apply splitOnChar_joinWith
    · intro hh
      exact List.cons_ne_nil _ _ (List.append_eq_nil.1 hh).1
    · intro g hg c hc
      rcases List.mem_append.1 hg with hg | hg
      · exact hlinesfree g hg c hc
      · rw [List.mem_singleton.1 hg] at hc
        cases hc
  have hfilter : (splitOnChar '\n' ((csvWriteDF df).toList)).filter
      (fun l => !l.isEmpty) =
      csvLineChars df.cols ::
        df.rows.map (fun r => csvLineChars (csvRowFields r)) := by
    rw [hsplit, List.filter_append,
      show List.filter (fun l => !l.isEmpty) [([] : List Char)] = [] from rfl,
      List.append_nil]
    apply List.filter_eq_self.2
    intro g hg
    rcases List.mem_cons.1 hg with rfl | hg
    · simpa [List.isEmpty_iff] using hheader
    · rcases List.mem_map.1 hg with ⟨r, hrr, rfl⟩
      simpa [List.isEmpty_iff] using hblank r hrr
  have hrowne : ∀ r ∈ df.rows, csvRowFields r ≠ [] := by
    intro r hrr hcontra
    have hr0 : r = [] := List.map_eq_nil_iff.1 hcontra
    rw [hr0] at hrr
    exact hcols (hwf [] hrr).symm
  unfold csvParseDF
  rw [hfilter]
  dsimp only
  rw [parse_csvLineChars df.cols hcols hfieldsH]
  have hraw : (df.rows.map (fun r => csvLineChars (csvRowFields r))).map
      (fun l => (splitOnChar ',' l).map String.mk) =
      df.rows.map csvRowFields := by
    rw [List.map_map]
    apply List.map_congr_left
    intro r hrr
    exact parse_csvLineChars (csvRowFields r) (hrowne r hrr) (hfieldsR r hrr)
  rw [hraw]
  have hrows : (df.rows.map csvRowFields).map (fun raw =>
      df.cols.zip ((List.range df.cols.length).map (fun j =>
        decodeField (isNumericColumn (df.rows.map csvRowFields) j)
          (raw.getD j "")))) = df.rows := by
    rw [List.map_map]
    have hcong : ∀ r ∈ df.rows, ((fun raw =>
        df.cols.zip ((List.range df.cols.length).map (fun j =>
          decodeField (isNumericColumn (df.rows.map csvRowFields) j)
            (raw.getD j "")))) ∘ csvRowFields) r = id r := by
      intro r hrr
      exact reconstruct_row df hwf r hrr hcolok
    rw [List.map_congr_left hcong, List.map_id]
  rw [hrows]

/-- C7 counterexample: a successful run whose aggregated table holds the
string cell "01" in the Region column writes the CSV line "01-05-2024,01,10";
read back, the Region column looks numeric, so "01" comes back as the
number 1 and the parsed table differs from the aggregated table. -/
theorem c7_counterexample :
    process_file noFuzzy
      (mkCsvFile ⟨["Month", "Region", "Sales"],
        [[("Month", .str maySample), ("Region", .str "01"), ("Sales", .num 10)]]⟩)
      none "Month" ["Region"] ["Sales"] "sum" =
      .ok (⟨["Formatted Month", "Region", "Sales"],
        [[("Formatted Month", .str "01-05-2024"), ("Region", .str "01"),
          ("Sales", .num 10)]]⟩,
        "Formatted Month,Region,Sales\n01-05-2024,01,10\n") ∧
    csvParseDF "Formatted Month,Region,Sales\n01-05-2024,01,10\n" ≠
      (⟨["Formatted Month", "Region", "Sales"],
        [[("Formatted Month", .str "01-05-2024"), ("Region", .str "01"),
          ("Sales", .num 10)]]⟩ : DF) := by
  decide

/-- C7 witness: a homogeneous aggregated table round-trips through its
CSV. -/
theorem c7_roundtrip_witness :
    csvParseDF (csvWriteDF ⟨["Formatted Month", "Region", "Sales"],
      [[("Formatted Month", .str "01-05-2024"), ("Region", .str "A"),
        ("Sales", .num 30)]]⟩) =
    ⟨["Formatted Month", "Region", "Sales"],
      [[("Formatted Month", .str "01-05-2024"), ("Region", .str "A"),
        ("Sales", .num 30)]]⟩ :=
  c7_roundtrip
    ⟨["Formatted Month", "Region", "Sales"],
      [[("Formatted Month", .str "01-05-2024"), ("Region", .str "A"),
        ("Sales", .num 30)]]⟩
    (by unfold DF.WF; decide) (by decide) (by decide) (by decide) (by decide)
    (by decide) (by decide)
